/-
Verification of the incremental GitHub issue synchronization engine of
`polar` (`server/polar/integrations/github/service/issue.py`).

The development shallowly embeds the data model and the operations of
`GithubIssueService`:

* `store` / `store_many` — upsert of remote issue payloads keyed on
  `external_id`, followed by one `issue_upserted` hook dispatch per
  affected record;
* `sync_issue` — one record's conditional (etag) fetch and the state
  transition driven by the response status (404, 410, other failures,
  304, 200);
* `list_issues_to_crawl_issue` / `list_issues_to_crawl_timeline` — the
  crawl scheduler queries.

Timestamps are modelled as `Option Int` (UTC seconds; `none` = SQL NULL),
identifiers as numbers.  The database session is modelled as an explicit
`Session` state threaded through the operations; the `issue_upserted`
hook channel is modelled as the list of records dispatched to it, in
dispatch order.  The `log.warning` call of `store_many` (the one logging
event a specification property refers to) is modelled as an appended log
line; purely observational `log.info` calls are not modelled.
-/
import Mathlib

namespace Polar

/-- An issue record, with the columns of `polar.models.Issue` that the
synchronization engine reads or writes.  Remote-sourced payload fields are
represented by `title`; `id` is the internal primary key, `external_id`
the GitHub-assigned identifier used as the upsert conflict key. -/
structure Issue where
  id : Nat
  external_id : Int
  organization_id : Nat
  repository_id : Nat
  number : Nat
  title : String
  github_issue_etag : Option String
  github_issue_fetched_at : Option Int
  github_timeline_fetched_at : Option Int
  deleted_at : Option Int
  deriving DecidableEq, Repr

/-- The owning organization scope (`polar.models.Organization`): carries the
GitHub app installation credentials and a soft-deletion marker. -/
structure Organization where
  id : Nat
  name : String
  installation_id : Option Nat
  deleted_at : Option Int
  deriving DecidableEq, Repr

/-- The owning repository scope (`polar.models.Repository`). -/
structure Repository where
  id : Nat
  name : String
  organization_id : Nat
  deleted_at : Option Int
  deriving DecidableEq, Repr

/-- A raw GitHub issue representation as delivered by the REST client or a
webhook (the union-typed `data` argument of `store` / `store_many`),
before normalization into an `IssueCreate` schema. -/
structure GithubIssueData where
  id : Int
  number : Nat
  title : String
  deriving DecidableEq, Repr

/-- The normalized creation schema (`polar.issue.schemas.IssueCreate`). -/
structure IssueCreate where
  external_id : Int
  organization_id : Nat
  repository_id : Nat
  number : Nat
  title : String
  deriving DecidableEq, Repr

/-- Modelled from the spec: `IssueCreate.from_github` (in
`polar.issue.schemas`, not part of the given source) is the boundary
normalization step producing the canonical internal record-creation type
from a remote payload plus the owning scope identifiers. -/
def IssueCreate.from_github (d : GithubIssueData) (organization_id repository_id : Nat) :
    IssueCreate :=
  { external_id := d.id
    organization_id := organization_id
    repository_id := repository_id
    number := d.number
    title := d.title }

/-- The database session state threaded through the service operations:
the stored issue rows, a fresh-primary-key counter for inserts, the
records dispatched on the `issue_upserted` hook channel (in dispatch
order), and emitted warning log lines. -/
structure Session where
  issues : List Issue
  next_id : Nat
  hooks : List Issue
  logs : List String
  deriving DecidableEq, Repr

/-- Modelled from the spec: one step of the UpsertStore collaborator's
`upsertMany` (`IssueService.upsert_many` with `constraints=[Issue.external_id]`,
not part of the given source): insert-or-update keyed on the unique
external identifier, returning the post-write record. -/
def upsertOne (issues : List Issue) (next : Nat) (s : IssueCreate) :
    List Issue × Nat × Issue :=
  match issues.find? (fun i => i.external_id == s.external_id) with
  | some old =>
      let upd : Issue :=
        { old with
          organization_id := s.organization_id
          repository_id := s.repository_id
          number := s.number
          title := s.title }
      (issues.map (fun i => if i.external_id == s.external_id then upd else i), next, upd)
  | none =>
      let fresh : Issue :=
        { id := next
          external_id := s.external_id
          organization_id := s.organization_id
          repository_id := s.repository_id
          number := s.number
          title := s.title
          github_issue_etag := none
          github_issue_fetched_at := none
          github_timeline_fetched_at := none
          deleted_at := none }
      (issues ++ [fresh], next + 1, fresh)

/-- Modelled from the spec: the UpsertStore collaborator's batch upsert,
`upsertMany(records, conflictKey) -> sequence<Record>` — idempotent
insert-or-update keyed on `external_id`, returning post-write state, one
record per input schema. -/
def upsertMany (issues : List Issue) (next : Nat) :
    List IssueCreate → List Issue × Nat × List Issue
  | [] => (issues, next, [])
  | s :: rest =>
      let step := upsertOne issues next s
      let tail := upsertMany step.1 step.2.1 rest
      (tail.1, tail.2.1, step.2.2 :: tail.2.2)

/-- `GithubIssueService.store_many`: normalize every input through
`IssueCreate.from_github`; on an empty batch, log a warning and return the
empty sequence (no store write, no hook dispatch, no exception); otherwise
upsert the whole batch keyed on `external_id` and then dispatch
`issue_upserted` once per affected record, in input order. -/
def store_many (sess : Session) (data : List GithubIssueData)
    (organization : Organization) (repository : Repository) :
    Session × List Issue :=
  let schemas := data.map (fun d => IssueCreate.from_github d organization.id repository.id)
  if schemas.isEmpty then
    ({ sess with logs := sess.logs ++ ["github.issue error=no issues to store"] }, [])
  else
    let u := upsertMany sess.issues sess.next_id schemas
    ({ sess with
        issues := u.1
        next_id := u.2.1
        hooks := sess.hooks ++ u.2.2 }, u.2.2)

/-- `GithubIssueService.store`: the single-record entry point, implemented
by delegating to `store_many` with the singleton batch and returning its
first record (`records[0]`; `none` can only arise from an empty batch,
which the singleton call never produces). -/
def store (sess : Session) (data : GithubIssueData)
    (organization : Organization) (repository : Repository) :
    Session × Option Issue :=
  let r := store_many sess [data] organization repository
  (r.1, r.2.head?)

/-- The outcome of the conditional GET issued by
`async_issues_get_with_headers`: either a `Response` with a status code,
parsed payload and response etag, or a `RequestFailed` exception carrying
the failing status code.  (304 responses carry no meaningful payload; the
engine never reads it there.) -/
inductive FetchOutcome where
  | success (status : Nat) (payload : GithubIssueData) (etag : Option String)
  | requestFailed (status : Nat)
  deriving DecidableEq, Repr

/-- The errors `sync_issue` raises to its caller: the missing-installation
guard, or a re-raised `RequestFailed` with a status the engine does not
interpret. -/
inductive SyncError where
  | noInstallationId
  | requestFailed (status : Nat)
  deriving DecidableEq, Repr

/-- The abstract result of one synchronization attempt (the spec's
`SyncResult`), labelling which branch of `sync_issue` completed. -/
inductive SyncResult where
  | unchanged
  | upserted
  | softDeleted
  deriving DecidableEq, Repr

/-- `Issue.save(session)`: persist the in-memory record over the stored
row with the same primary key. -/
def saveIssue (issues : List Issue) (issue : Issue) : List Issue :=
  issues.map (fun i => if i.id == issue.id then issue else i)

/-- Modelled from the spec: `softDelete(externalId)` of the UpsertStore
collaborator (`IssueService.soft_delete`, not part of the given source)
marks the row with the given primary key logically removed by setting its
`deleted_at` to the current time. -/
def soft_delete (sess : Session) (issue_id : Nat) (now : Int) : Session :=
  { sess with
      issues := sess.issues.map
        (fun i => if i.id == issue_id then { i with deleted_at := some now } else i) }

/-- Python truthiness of an optional integer (`if crawl_with_installation_id`,
`if not installation_id`): `None` and `0` are falsy. -/
def truthy : Option Nat → Bool
  | none => false
  | some n => n != 0

/-- `GithubIssueService.sync_issue`, with the fetch outcome passed in
explicitly (the transport is an external collaborator) and the current
time `now` a parameter (`datetime.datetime.utcnow()`):

* no usable installation id → raise;
* `RequestFailed` 404 → set `github_issue_fetched_at = now`, save, return;
* `RequestFailed` 410 → soft-delete the record, return;
* other `RequestFailed` → re-raise;
* response 304 (etag cache hit) → return with no change;
* response 200 → upsert the parsed payload via `store`, then save the
  issue with `github_issue_fetched_at = now` and the new response etag;
* any other response status falls off the end with no change.

The returned `Issue` is the in-memory record after the call (unchanged on
the paths that do not mutate it), paired with the spec's `SyncResult`
label for the branch taken. -/
def sync_issue (sess : Session) (org : Organization) (repo : Repository)
    (issue : Issue) (crawl_with_installation_id : Option Nat)
    (res : FetchOutcome) (now : Int) :
    Session × Except SyncError (Issue × SyncResult) :=
  let installation_id : Option Nat :=
    if truthy crawl_with_installation_id then crawl_with_installation_id
    else org.installation_id
  if !truthy installation_id then
    (sess, .error .noInstallationId)
  else
    match res with
    | .requestFailed status =>
        if status == 404 then
          let issue' := { issue with github_issue_fetched_at := some now }
          ({ sess with issues := saveIssue sess.issues issue' },
           .ok (issue', .unchanged))
        else if status == 410 then
          (soft_delete sess issue.id now,
           .ok ({ issue with deleted_at := some now }, .softDeleted))
        else
          (sess, .error (.requestFailed status))
    | .success status payload etag =>
        if status == 304 then
          (sess, .ok (issue, .unchanged))
        else if status == 200 then
          let stored := store sess payload org repo
          let issue' :=
            { issue with
                github_issue_fetched_at := some now
                github_issue_etag := etag }
          ({ stored.1 with issues := saveIssue stored.1.issues issue' },
           .ok (issue', .upserted))
        else
          (sess, .ok (issue, .unchanged))

/-- The record resulting from a synchronization attempt: the updated
in-memory issue on success, the untouched input on a raised error. -/
def syncedIssue (issue : Issue) (r : Except SyncError (Issue × SyncResult)) : Issue :=
  match r with
  | .error _ => issue
  | .ok p => p.1

/-- `a ≤ b` on nullable timestamps, with `none` (never synced) below
everything: the order in which a freshness timestamp may only move. -/
def fetchedAtLe : Option Int → Option Int → Bool
  | none, _ => true
  | some _, none => false
  | some a, some b => a ≤ b

/-- The visible database for the crawl scheduler queries: issue rows
together with the joined organization and repository tables. -/
structure DB where
  issues : List Issue
  organizations : List Organization
  repositories : List Repository
  deriving DecidableEq, Repr

/-- `Issue.organization` relationship lookup used by the query's join. -/
def DB.findOrg (db : DB) (i : Issue) : Option Organization :=
  db.organizations.find? (fun o => o.id == i.organization_id)

/-- `Issue.repository` relationship lookup used by the query's join. -/
def DB.findRepo (db : DB) (i : Issue) : Option Repository :=
  db.repositories.find? (fun r => r.id == i.repository_id)

/-- The `WHERE` clause of `list_issues_to_crawl_issue` (its join drops
rows without an owning organization or repository):
`github_issue_fetched_at IS NULL OR github_issue_fetched_at < one_hour_ago`,
issue, organization and repository not soft-deleted, and the organization
has an installation id. -/
def issueCrawlWhere (db : DB) (one_hour_ago : Int) (i : Issue) : Bool :=
  match db.findOrg i, db.findRepo i with
  | some org, some repo =>
      (match i.github_issue_fetched_at with
       | none => true
       | some t => t < one_hour_ago)
      && i.deleted_at.isNone
      && org.deleted_at.isNone
      && repo.deleted_at.isNone
      && org.installation_id.isSome
  | _, _ => false

/-- The `WHERE` clause of `list_issues_to_crawl_timeline`: identical but
on the `github_timeline_fetched_at` freshness dimension. -/
def timelineCrawlWhere (db : DB) (one_hour_ago : Int) (i : Issue) : Bool :=
  match db.findOrg i, db.findRepo i with
  | some org, some repo =>
      (match i.github_timeline_fetched_at with
       | none => true
       | some t => t < one_hour_ago)
      && i.deleted_at.isNone
      && org.deleted_at.isNone
      && repo.deleted_at.isNone
      && org.installation_id.isSome
  | _, _ => false

/-- `ORDER BY column ASC` on a nullable timestamp column under
PostgreSQL's default null ordering: ascending with `NULLS LAST` (a null
sorts as if larger than every non-null value). -/
def ascNullsLast : Option Int → Option Int → Prop
  | none, none => True
  | none, some _ => False
  | some _, none => True
  | some a, some b => a ≤ b

instance : DecidableRel ascNullsLast := by
  intro a b
  cases a <;> cases b <;> simp [ascNullsLast] <;> infer_instance

/-- The `ORDER BY asc(github_issue_fetched_at)` row order. -/
def issueAscOrder (a b : Issue) : Prop :=
  ascNullsLast a.github_issue_fetched_at b.github_issue_fetched_at

instance : DecidableRel issueAscOrder := by
  intro a b
  simp only [issueAscOrder]
  infer_instance

/-- The `ORDER BY asc(github_timeline_fetched_at)` row order. -/
def timelineAscOrder (a b : Issue) : Prop :=
  ascNullsLast a.github_timeline_fetched_at b.github_timeline_fetched_at

instance : DecidableRel timelineAscOrder := by
  intro a b
  simp only [timelineAscOrder]
  infer_instance

/-- `GithubIssueService.list_issues_to_crawl_issue`: select the issues
satisfying the crawl predicate on the body-freshness dimension
(`one_hour_ago = now - 1 hour`, times in seconds), ordered ascending by
`github_issue_fetched_at` (PostgreSQL `ASC`, hence nulls last), capped at
1000 rows.  The sort models SQL `ORDER BY` as a stable sort over the
filtered rows. -/
def list_issues_to_crawl_issue (db : DB) (now : Int) : List Issue :=
  let one_hour_ago := now - 3600
  (((db.issues.filter (issueCrawlWhere db one_hour_ago)).insertionSort
      issueAscOrder).take 1000)

/-- `GithubIssueService.list_issues_to_crawl_timeline`: the same query on
the timeline-freshness dimension. -/
def list_issues_to_crawl_timeline (db : DB) (now : Int) : List Issue :=
  let one_hour_ago := now - 3600
  (((db.issues.filter (timelineCrawlWhere db one_hour_ago)).insertionSort
      timelineAscOrder).take 1000)

/-! ### Basic lemmas about the embedded operations -/

theorem fetchedAtLe_refl (a : Option Int) : fetchedAtLe a a = true := by
  cases a <;> simp [fetchedAtLe]

theorem ascNullsLast_total (a b : Option Int) : ascNullsLast a b ∨ ascNullsLast b a := by
  cases a <;> cases b <;> simp [ascNullsLast]
  exact Int.le_total _ _

theorem ascNullsLast_trans {a b c : Option Int} :
    ascNullsLast a b → ascNullsLast b c → ascNullsLast a c := by
  cases a <;> cases b <;> cases c <;> simp [ascNullsLast]
  exact Int.le_trans

instance : IsTotal Issue issueAscOrder :=
  ⟨fun _ _ => ascNullsLast_total _ _⟩

instance : IsTrans Issue issueAscOrder :=
  ⟨fun _ _ _ => ascNullsLast_trans⟩

instance : IsTotal Issue timelineAscOrder :=
  ⟨fun _ _ => ascNullsLast_total _ _⟩

instance : IsTrans Issue timelineAscOrder :=
  ⟨fun _ _ _ => ascNullsLast_trans⟩

/-- Branch equation: the missing-installation guard raises before the
fetch outcome is even examined. -/
theorem sync_issue_no_installation (sess : Session) (org : Organization)
    (repo : Repository) (issue : Issue) (crawl : Option Nat) (res : FetchOutcome)
    (now : Int)
    (hinst : truthy (if truthy crawl then crawl else org.installation_id) = false) :
    sync_issue sess org repo issue crawl res now =
      (sess, .error .noInstallationId) := by
  simp [sync_issue, hinst]

/-- Branch equation: the 404 path stamps `github_issue_fetched_at` and
saves the record. -/
theorem sync_issue_eq_404 (sess : Session) (org : Organization)
    (repo : Repository) (issue : Issue) (crawl : Option Nat) (now : Int)
    (hinst : truthy (if truthy crawl then crawl else org.installation_id) = true) :
    sync_issue sess org repo issue crawl (.requestFailed 404) now =
      (let issue' := { issue with github_issue_fetched_at := some now }
       ({ sess with issues := saveIssue sess.issues issue' },
        .ok (issue', .unchanged))) := by
  simp [sync_issue, hinst]

/-- Branch equation: the 410 path soft-deletes the record. -/
theorem sync_issue_eq_410 (sess : Session) (org : Organization)
    (repo : Repository) (issue : Issue) (crawl : Option Nat) (now : Int)
    (hinst : truthy (if truthy crawl then crawl else org.installation_id) = true) :
    sync_issue sess org repo issue crawl (.requestFailed 410) now =
      (soft_delete sess issue.id now,
       .ok ({ issue with deleted_at := some now }, .softDeleted)) := by
  simp [sync_issue, hinst]

/-- Branch equation: every other `RequestFailed` status is re-raised with
no session change. -/
theorem sync_issue_eq_transient (sess : Session) (org : Organization)
    (repo : Repository) (issue : Issue) (crawl : Option Nat) (now : Int)
    (status : Nat)
    (hinst : truthy (if truthy crawl then crawl else org.installation_id) = true)
    (h404 : status ≠ 404) (h410 : status ≠ 410) :
    sync_issue sess org repo issue crawl (.requestFailed status) now =
      (sess, .error (.requestFailed status)) := by
  simp [sync_issue, hinst, h404, h410]

/-- Branch equation: a 304 response (etag cache hit) returns with no
change at all. -/
theorem sync_issue_eq_304 (sess : Session) (org : Organization)
    (repo : Repository) (issue : Issue) (crawl : Option Nat)
    (payload : GithubIssueData) (etag : Option String) (now : Int)
    (hinst : truthy (if truthy crawl then crawl else org.installation_id) = true) :
    sync_issue sess org repo issue crawl (.success 304 payload etag) now =
      (sess, .ok (issue, .unchanged)) := by
  simp [sync_issue, hinst]

/-- Branch equation: a 200 response upserts the payload through `store`
and then saves the issue with the new timestamp and etag. -/
theorem sync_issue_eq_200 (sess : Session) (org : Organization)
    (repo : Repository) (issue : Issue) (crawl : Option Nat)
    (payload : GithubIssueData) (etag : Option String) (now : Int)
    (hinst : truthy (if truthy crawl then crawl else org.installation_id) = true) :
    sync_issue sess org repo issue crawl (.success 200 payload etag) now =
      (let issue' := { issue with github_issue_fetched_at := some now, github_issue_etag := etag }
       let stored := store sess payload org repo
       ({ stored.1 with issues := saveIssue stored.1.issues issue' },
        .ok (issue', .upserted))) := by
  simp [sync_issue, hinst]

/-- Branch equation: a successful response with any other status falls
off the end of `sync_issue` with no change. -/
theorem sync_issue_eq_other_success (sess : Session) (org : Organization)
    (repo : Repository) (issue : Issue) (crawl : Option Nat)
    (payload : GithubIssueData) (etag : Option String) (now : Int) (status : Nat)
    (hinst : truthy (if truthy crawl then crawl else org.installation_id) = true)
    (h304 : status ≠ 304) (h200 : status ≠ 200) :
    sync_issue sess org repo issue crawl (.success status payload etag) now =
      (sess, .ok (issue, .unchanged)) := by
  simp [sync_issue, hinst, h304, h200]

/-- A row selected by the body-freshness `WHERE` clause is not
soft-deleted. -/
theorem issueCrawlWhere_deleted_eq_none {db : DB} {one_hour_ago : Int} {i : Issue}
    (h : issueCrawlWhere db one_hour_ago i = true) : i.deleted_at = none := by
  unfold issueCrawlWhere at h
  split at h
  · simp only [Bool.and_eq_true, Option.isNone_iff_eq_none] at h
    exact h.1.1.1.2
  · cases h

/-- A row selected by the timeline-freshness `WHERE` clause is not
soft-deleted. -/
theorem timelineCrawlWhere_deleted_eq_none {db : DB} {one_hour_ago : Int} {i : Issue}
    (h : timelineCrawlWhere db one_hour_ago i = true) : i.deleted_at = none := by
  unfold timelineCrawlWhere at h
  split at h
  · simp only [Bool.and_eq_true, Option.isNone_iff_eq_none] at h
    exact h.1.1.1.2
  · cases h

/-- Characterization of the body-freshness `WHERE` clause when the
joined scopes resolve. -/
theorem issueCrawlWhere_iff {db : DB} {one_hour_ago : Int} {i : Issue}
    {org : Organization} {repo : Repository}
    (ho : db.findOrg i = some org) (hr : db.findRepo i = some repo) :
    issueCrawlWhere db one_hour_ago i = true ↔
      (i.deleted_at = none ∧ org.deleted_at = none ∧ repo.deleted_at = none ∧
       org.installation_id ≠ none ∧
       (i.github_issue_fetched_at = none ∨
        ∃ t, i.github_issue_fetched_at = some t ∧ t < one_hour_ago)) := by
  unfold issueCrawlWhere
  rw [ho, hr]
  simp only [Bool.and_eq_true, Option.isNone_iff_eq_none, Option.isSome_iff_ne_none]
  constructor
  · rintro ⟨⟨⟨⟨hts, hdel⟩, horg⟩, hrepo⟩, hinst⟩
    refine ⟨hdel, horg, hrepo, hinst, ?_⟩
    cases hfa : i.github_issue_fetched_at with
    | none => exact Or.inl rfl
    | some t =>
        rw [hfa] at hts
        exact Or.inr ⟨t, rfl, of_decide_eq_true hts⟩
  · rintro ⟨hdel, horg, hrepo, hinst, hts⟩
    refine ⟨⟨⟨⟨?_, hdel⟩, horg⟩, hrepo⟩, hinst⟩
    rcases hts with h | ⟨t, ht, hlt⟩
    · rw [h]
    · rw [ht]
      exact decide_eq_true hlt

/-- Characterization of the timeline-freshness `WHERE` clause when the
joined scopes resolve. -/
theorem timelineCrawlWhere_iff {db : DB} {one_hour_ago : Int} {i : Issue}
    {org : Organization} {repo : Repository}
    (ho : db.findOrg i = some org) (hr : db.findRepo i = some repo) :
    timelineCrawlWhere db one_hour_ago i = true ↔
      (i.deleted_at = none ∧ org.deleted_at = none ∧ repo.deleted_at = none ∧
       org.installation_id ≠ none ∧
       (i.github_timeline_fetched_at = none ∨
        ∃ t, i.github_timeline_fetched_at = some t ∧ t < one_hour_ago)) := by
  unfold timelineCrawlWhere
  rw [ho, hr]
  simp only [Bool.and_eq_true, Option.isNone_iff_eq_none, Option.isSome_iff_ne_none]
  constructor
  · rintro ⟨⟨⟨⟨hts, hdel⟩, horg⟩, hrepo⟩, hinst⟩
    refine ⟨hdel, horg, hrepo, hinst, ?_⟩
    cases hfa : i.github_timeline_fetched_at with
    | none => exact Or.inl rfl
    | some t =>
        rw [hfa] at hts
        exact Or.inr ⟨t, rfl, of_decide_eq_true hts⟩
  · rintro ⟨hdel, horg, hrepo, hinst, hts⟩
    refine ⟨⟨⟨⟨?_, hdel⟩, horg⟩, hrepo⟩, hinst⟩
    rcases hts with h | ⟨t, ht, hlt⟩
    · rw [h]
    · rw [ht]
      exact decide_eq_true hlt

/-! ### Concrete fixtures, used by evaluation theorems and witnesses -/

/-- A live organization with an installation id. -/
def orgMain : Organization :=
  { id := 1, name := "acme", installation_id := some 7, deleted_at := none }

/-- A live repository owned by `orgMain`. -/
def repoMain : Repository :=
  { id := 1, name := "widgets", organization_id := 1, deleted_at := none }

/-- A remote payload for issue number 7. -/
def payloadMain : GithubIssueData := { id := 100, number := 7, title := "t" }

/-- A stored issue carrying the cache validator `"abc"` and a body
freshness timestamp of 5. -/
def issueCacheHit : Issue :=
  { id := 1
    external_id := 100
    organization_id := 1
    repository_id := 1
    number := 7
    title := "t"
    github_issue_etag := some "abc"
    github_issue_fetched_at := some 5
    github_timeline_fetched_at := none
    deleted_at := none }

/-- A session holding just `issueCacheHit`. -/
def sessCacheHit : Session :=
  { issues := [issueCacheHit], next_id := 2, hooks := [], logs := [] }

/-- An issue fixture for the scheduler: number `n`, both freshness
timestamps `t`, owned by `orgMain` / `repoMain`. -/
def mkCrawlIssue (n : Nat) (t : Option Int) : Issue :=
  { id := n
    external_id := Int.ofNat (100 + n)
    organization_id := 1
    repository_id := 1
    number := n
    title := "t"
    github_issue_etag := none
    github_issue_fetched_at := t
    github_timeline_fetched_at := t
    deleted_at := none }

/-- Never-synced record (null freshness timestamps). -/
def issueNullTs : Issue := mkCrawlIssue 0 none

/-- Record with freshness timestamps t1 = 1000. -/
def issueT1 : Issue := mkCrawlIssue 1 (some 1000)

/-- Record with freshness timestamps t2 = 2000. -/
def issueT2 : Issue := mkCrawlIssue 2 (some 2000)

/-- Record with freshness timestamps t3 = 3000. -/
def issueT3 : Issue := mkCrawlIssue 3 (some 3000)

/-- A database holding the four scheduler fixtures in insertion order
[null, t1, t3, t2] (t1 < t2 < t3), as in the spec's ordering scenario. -/
def crawlDB : DB :=
  { issues := [issueNullTs, issueT1, issueT3, issueT2]
    organizations := [orgMain]
    repositories := [repoMain] }

/-! ### Claims -/

/-- C1: evaluation of the code at the spec's NotModified scenario.  A
record with stored validator `"abc"` and `bodyFetchedAt = 5` whose
conditional fetch resolves to 304 at time 10 is returned Unchanged with
payload and validator untouched — but, contrary to the specification, the
304 branch of `sync_issue` returns before writing anything, so
`github_issue_fetched_at` stays 5 and is **not** advanced to the current
time 10. -/
theorem sync_304_leaves_timestamp_unadvanced :
    sync_issue sessCacheHit orgMain repoMain issueCacheHit none
        (.success 304 payloadMain (some "abc")) 10 =
      (sessCacheHit, .ok (issueCacheHit, .unchanged)) ∧
    issueCacheHit.github_issue_etag = some "abc" ∧
    issueCacheHit.github_issue_fetched_at = some 5 ∧
    some (5 : Int) ≠ some (10 : Int) :=
  ⟨rfl, rfl, rfl, by decide⟩

/-- C2 (counterexample): on records with freshness timestamps
[null, t1, t3, t2] (t1 < t2 < t3) both scheduler queries return the order
[t1, t2, t3, null] — nulls sort LAST under the query's plain ascending
order (PostgreSQL `ASC` defaults to `NULLS LAST`) — refuting the claimed
order [null, t1, t2, t3]. -/
theorem crawl_nulls_first_refuted :
    list_issues_to_crawl_issue crawlDB 10000 =
      [issueT1, issueT2, issueT3, issueNullTs] ∧
    list_issues_to_crawl_issue crawlDB 10000 ≠
      [issueNullTs, issueT1, issueT2, issueT3] ∧
    list_issues_to_crawl_timeline crawlDB 10000 =
      [issueT1, issueT2, issueT3, issueNullTs] ∧
    list_issues_to_crawl_timeline crawlDB 10000 ≠
      [issueNullTs, issueT1, issueT2, issueT3] :=
  ⟨by decide, by decide, by decide, by decide⟩

/-- C2 (amended): both scheduler queries return the selected records
ordered ascending by the relevant freshness timestamp with null
timestamps sorting last, so given records with timestamps
[null, t1, t3, t2] (t1 < t2 < t3) the returned order is
[t1-record, t2-record, t3-record, null-record]. -/
theorem crawl_sorted_asc_nulls_last (db : DB) (now : Int) :
    List.Sorted issueAscOrder (list_issues_to_crawl_issue db now) ∧
    List.Sorted timelineAscOrder (list_issues_to_crawl_timeline db now) ∧
    list_issues_to_crawl_issue crawlDB 10000 =
      [issueT1, issueT2, issueT3, issueNullTs] :=
  ⟨(List.sorted_insertionSort issueAscOrder _).sublist (List.take_sublist _ _),
   (List.sorted_insertionSort timelineAscOrder _).sublist (List.take_sublist _ _),
   by decide⟩

/-- C3: when the conditional fetch fails with 410 Gone, `sync_issue`
soft-deletes the record (sets `deleted_at = now` on the stored row with
the record's primary key), advances no freshness timestamp (the stored
rows' `github_issue_fetched_at` column is untouched, and the returned
record keeps its old value), and returns SoftDeleted. -/
theorem sync_410_soft_deletes_without_timestamp (sess : Session)
    (org : Organization) (repo : Repository) (issue : Issue)
    (crawl : Option Nat) (now : Int)
    (hinst : truthy (if truthy crawl then crawl else org.installation_id) = true) :
    sync_issue sess org repo issue crawl (.requestFailed 410) now =
      (soft_delete sess issue.id now,
       .ok ({ issue with deleted_at := some now }, .softDeleted)) ∧
    (soft_delete sess issue.id now).issues =
      sess.issues.map
        (fun i => if i.id == issue.id then { i with deleted_at := some now } else i) ∧
    (soft_delete sess issue.id now).issues.map (fun i => i.github_issue_fetched_at) =
      sess.issues.map (fun i => i.github_issue_fetched_at) ∧
    ({ issue with deleted_at := some now } : Issue).github_issue_fetched_at =
      issue.github_issue_fetched_at := by
  refine ⟨sync_issue_eq_410 sess org repo issue crawl now hinst, rfl, ?_, rfl⟩
  simp only [soft_delete, List.map_map]
  refine List.map_congr_left ?_
  intro a _
  by_cases hid : (a.id == issue.id) = true <;> simp [Function.comp, hid]

/-- C3 witness: the theorem applied to the concrete cache-hit fixture at
time 10 with no installation override. -/
theorem sync_410_soft_deletes_without_timestamp_witness :
    truthy (if truthy (none : Option Nat) then none else orgMain.installation_id) = true ∧
    sync_issue sessCacheHit orgMain repoMain issueCacheHit none
        (.requestFailed 410) 10 =
      (soft_delete sessCacheHit issueCacheHit.id 10,
       .ok ({ issueCacheHit with deleted_at := some 10 }, .softDeleted)) :=
  ⟨by decide,
   (sync_410_soft_deletes_without_timestamp sessCacheHit orgMain repoMain
      issueCacheHit none 10 (by decide)).1⟩

/-- C4: when the conditional fetch fails with 404 Not Found, `sync_issue`
sets `github_issue_fetched_at` to the current time, saves that record,
and makes no other change: the saved record keeps its `deleted_at` (no
soft-delete), etag and payload, and the session's hooks, logs and
id-counter are untouched; the result is Unchanged. -/
theorem sync_404_timestamp_only (sess : Session) (org : Organization)
    (repo : Repository) (issue : Issue) (crawl : Option Nat) (now : Int)
    (hinst : truthy (if truthy crawl then crawl else org.installation_id) = true) :
    sync_issue sess org repo issue crawl (.requestFailed 404) now =
      (let issue' := { issue with github_issue_fetched_at := some now }
       ({ sess with issues := saveIssue sess.issues issue' },
        .ok (issue', .unchanged))) ∧
    ({ issue with github_issue_fetched_at := some now } : Issue).deleted_at =
      issue.deleted_at ∧
    ({ issue with github_issue_fetched_at := some now } : Issue).github_issue_etag =
      issue.github_issue_etag ∧
    ({ issue with github_issue_fetched_at := some now } : Issue).title = issue.title ∧
    (sync_issue sess org repo issue crawl (.requestFailed 404) now).1.hooks =
      sess.hooks ∧
    (sync_issue sess org repo issue crawl (.requestFailed 404) now).1.logs =
      sess.logs ∧
    (sync_issue sess org repo issue crawl (.requestFailed 404) now).1.next_id =
      sess.next_id := by
  have he := sync_issue_eq_404 sess org repo issue crawl now hinst
  refine ⟨he, rfl, rfl, rfl, ?_, ?_, ?_⟩ <;> rw [he]

/-- C4 witness: the theorem applied to the concrete cache-hit fixture at
time 10. -/
theorem sync_404_timestamp_only_witness :
    truthy (if truthy (none : Option Nat) then none else orgMain.installation_id) = true ∧
    sync_issue sessCacheHit orgMain repoMain issueCacheHit none
        (.requestFailed 404) 10 =
      (let issue' := { issueCacheHit with github_issue_fetched_at := some 10 }
       ({ sessCacheHit with issues := saveIssue sessCacheHit.issues issue' },
        .ok (issue', .unchanged))) :=
  ⟨by decide,
   (sync_404_timestamp_only sessCacheHit orgMain repoMain issueCacheHit none 10
      (by decide)).1⟩

/-- C5: when the conditional fetch fails with any status other than 404
and 410, `sync_issue` re-raises the error unchanged and performs no store
mutation: the session is returned exactly as given (so neither freshness
timestamp advanced, no hook dispatched) and the in-memory record is
untouched. -/
theorem sync_transient_propagates_no_mutation (sess : Session)
    (org : Organization) (repo : Repository) (issue : Issue)
    (crawl : Option Nat) (now : Int) (status : Nat)
    (hinst : truthy (if truthy crawl then crawl else org.installation_id) = true)
    (h404 : status ≠ 404) (h410 : status ≠ 410) :
    sync_issue sess org repo issue crawl (.requestFailed status) now =
      (sess, .error (.requestFailed status)) ∧
    syncedIssue issue (sync_issue sess org repo issue crawl (.requestFailed status) now).2 =
      issue := by
  have he := sync_issue_eq_transient sess org repo issue crawl now status hinst h404 h410
  exact ⟨he, by rw [he]; rfl⟩

/-- C5 witness: the theorem applied at status 500 on the concrete
cache-hit fixture. -/
theorem sync_transient_propagates_no_mutation_witness :
    truthy (if truthy (none : Option Nat) then none else orgMain.installation_id) = true ∧
    (500 : Nat) ≠ 404 ∧ (500 : Nat) ≠ 410 ∧
    sync_issue sessCacheHit orgMain repoMain issueCacheHit none
        (.requestFailed 500) 10 =
      (sessCacheHit, .error (.requestFailed 500)) :=
  ⟨by decide, by decide, by decide,
   (sync_transient_propagates_no_mutation sessCacheHit orgMain repoMain
      issueCacheHit none 10 500 (by decide) (by decide) (by decide)).1⟩

/-- C6: a stored record with `deleted_at` set is never returned by either
scheduler query, for any database contents and any current time. -/
theorem crawl_excludes_soft_deleted (db : DB) (now : Int) :
    (∀ i ∈ list_issues_to_crawl_issue db now, i.deleted_at = none) ∧
    (∀ i ∈ list_issues_to_crawl_timeline db now, i.deleted_at = none) := by
  constructor
  · intro i hi
    have h1 := List.take_subset _ _ hi
    rw [List.mem_insertionSort] at h1
    exact issueCrawlWhere_deleted_eq_none (List.mem_filter.mp h1).2
  · intro i hi
    have h1 := List.take_subset _ _ hi
    rw [List.mem_insertionSort] at h1
    exact timelineCrawlWhere_deleted_eq_none (List.mem_filter.mp h1).2

/-- C6 witness: the theorem applied to the concrete scheduler database,
where `issueT1` is returned by the body-dimension query. -/
theorem crawl_excludes_soft_deleted_witness :
    issueT1 ∈ list_issues_to_crawl_issue crawlDB 10000 ∧
    issueT1.deleted_at = none :=
  ⟨by decide, (crawl_excludes_soft_deleted crawlDB 10000).1 issueT1 (by decide)⟩

/-- C7: for a record whose owning organization and repository resolve
through the query's joins, the record satisfies the selection predicate
(of either freshness dimension) exactly when it is not soft-deleted, its
organization and repository are not soft-deleted, the organization has an
installation id, and the relevant freshness timestamp is null or older
than `now` minus the one-hour staleness window. -/
theorem crawl_candidate_iff (db : DB) (now : Int) (i : Issue)
    (org : Organization) (repo : Repository)
    (ho : db.findOrg i = some org) (hr : db.findRepo i = some repo) :
    (issueCrawlWhere db (now - 3600) i = true ↔
      (i.deleted_at = none ∧ org.deleted_at = none ∧ repo.deleted_at = none ∧
       org.installation_id ≠ none ∧
       (i.github_issue_fetched_at = none ∨
        ∃ t, i.github_issue_fetched_at = some t ∧ t < now - 3600))) ∧
    (timelineCrawlWhere db (now - 3600) i = true ↔
      (i.deleted_at = none ∧ org.deleted_at = none ∧ repo.deleted_at = none ∧
       org.installation_id ≠ none ∧
       (i.github_timeline_fetched_at = none ∨
        ∃ t, i.github_timeline_fetched_at = some t ∧ t < now - 3600))) :=
  ⟨issueCrawlWhere_iff ho hr, timelineCrawlWhere_iff ho hr⟩

/-- C7 witness: the theorem applied to `issueT1` in the concrete
scheduler database at time 10000: its timestamp 1000 is older than the
staleness cutoff 6400, so the selection predicate holds. -/
theorem crawl_candidate_iff_witness :
    DB.findOrg crawlDB issueT1 = some orgMain ∧
    DB.findRepo crawlDB issueT1 = some repoMain ∧
    issueCrawlWhere crawlDB (10000 - 3600) issueT1 = true :=
  ⟨by decide, by decide,
   ((crawl_candidate_iff crawlDB 10000 issueT1 orgMain repoMain (by decide)
       (by decide)).1).2
     ⟨rfl, rfl, rfl, by decide, Or.inr ⟨1000, rfl, by decide⟩⟩⟩

/-- C8: `store_many` on an empty batch logs the condition and returns the
empty sequence without raising, touching the store, or dispatching hooks;
on a non-empty batch it performs the whole batch upsert and then one hook
dispatch per affected record, appended in a single pass after the batch
write. -/
theorem store_many_empty_noop_hooks_after_batch (sess : Session)
    (data : List GithubIssueData) (org : Organization) (repo : Repository) :
    store_many sess [] org repo =
      ({ sess with logs := sess.logs ++ ["github.issue error=no issues to store"] },
       []) ∧
    (data ≠ [] →
      store_many sess data org repo =
        (let u := upsertMany sess.issues sess.next_id
            (data.map (fun d => IssueCreate.from_github d org.id repo.id))
         ({ sess with issues := u.1, next_id := u.2.1, hooks := sess.hooks ++ u.2.2 },
          u.2.2))) := by
  refine ⟨rfl, fun h => ?_⟩
  cases data with
  | nil => exact absurd rfl h
  | cons a as => rfl

/-- C8 witness: the theorem's non-empty branch applied to the singleton
batch `[payloadMain]`. -/
theorem store_many_empty_noop_hooks_after_batch_witness :
    ([payloadMain] ≠ ([] : List GithubIssueData)) ∧
    store_many sessCacheHit [payloadMain] orgMain repoMain =
      (let u := upsertMany sessCacheHit.issues sessCacheHit.next_id
          ([payloadMain].map (fun d => IssueCreate.from_github d orgMain.id repoMain.id))
       ({ sessCacheHit with
            issues := u.1
            next_id := u.2.1
            hooks := sessCacheHit.hooks ++ u.2.2 },
        u.2.2)) :=
  ⟨by decide,
   (store_many_empty_noop_hooks_after_batch sessCacheHit [payloadMain] orgMain
      repoMain).2 (by decide)⟩

/-- C9: across one `sync_issue` call whose current time is at least the
record's stored `github_issue_fetched_at`, the resulting record's
`github_issue_fetched_at` never decreases (it is stamped to `now` on the
404 and 200 paths and untouched everywhere else); and on a transient
failure (any `RequestFailed` status other than 404/410) neither the
session nor the record is mutated at all. -/
theorem sync_fetched_at_monotone (sess : Session) (org : Organization)
    (repo : Repository) (issue : Issue) (crawl : Option Nat)
    (res : FetchOutcome) (now : Int)
    (h : fetchedAtLe issue.github_issue_fetched_at (some now) = true) :
    fetchedAtLe issue.github_issue_fetched_at
      (syncedIssue issue
        (sync_issue sess org repo issue crawl res now).2).github_issue_fetched_at
      = true ∧
    (∀ status : Nat, status ≠ 404 → status ≠ 410 →
      (sync_issue sess org repo issue crawl (.requestFailed status) now).1 = sess ∧
      syncedIssue issue
          (sync_issue sess org repo issue crawl (.requestFailed status) now).2
        = issue) := by
  by_cases hinst : truthy (if truthy crawl then crawl else org.installation_id) = true
  · constructor
    · cases res with
      | requestFailed status =>
          by_cases h404 : status = 404
          · subst h404
            rw [sync_issue_eq_404 sess org repo issue crawl now hinst]
            exact h
          · by_cases h410 : status = 410
            · subst h410
              rw [sync_issue_eq_410 sess org repo issue crawl now hinst]
              exact fetchedAtLe_refl _
            · rw [sync_issue_eq_transient sess org repo issue crawl now status hinst
                h404 h410]
              exact fetchedAtLe_refl _
      | success status payload etag =>
          by_cases h304 : status = 304
          · subst h304
            rw [sync_issue_eq_304 sess org repo issue crawl payload etag now hinst]
            exact fetchedAtLe_refl _
          · by_cases h200 : status = 200
            · subst h200
              rw [sync_issue_eq_200 sess org repo issue crawl payload etag now hinst]
              exact h
            · rw [sync_issue_eq_other_success sess org repo issue crawl payload etag
                now status hinst h304 h200]
              exact fetchedAtLe_refl _
    · intro status h404 h410
      rw [sync_issue_eq_transient sess org repo issue crawl now status hinst h404 h410]
      exact ⟨rfl, rfl⟩
  · rw [Bool.not_eq_true] at hinst
    constructor
    · rw [sync_issue_no_installation sess org repo issue crawl res now hinst]
      exact fetchedAtLe_refl _
    · intro status _ _
      rw [sync_issue_no_installation sess org repo issue crawl _ now hinst]
      exact ⟨rfl, rfl⟩

/-- C9 witness: the theorem applied to the cache-hit fixture (stored
timestamp 5 ≤ now = 10) on the 404 path, which stamps the timestamp. -/
theorem sync_fetched_at_monotone_witness :
    fetchedAtLe issueCacheHit.github_issue_fetched_at (some 10) = true ∧
    fetchedAtLe issueCacheHit.github_issue_fetched_at
      (syncedIssue issueCacheHit
        (sync_issue sessCacheHit orgMain repoMain issueCacheHit none
          (.requestFailed 404) 10).2).github_issue_fetched_at
      = true :=
  ⟨by decide,
   (sync_fetched_at_monotone sessCacheHit orgMain repoMain issueCacheHit none
      (.requestFailed 404) 10 (by decide)).1⟩

/-- C10: `store` is the singleton refinement of `store_many`: it returns
exactly the session produced by `store_many` on the one-element batch
together with that batch's first (and only) returned record, so the same
upsert write happens and the one record is hook-dispatched once. -/
theorem store_eq_store_many_singleton (sess : Session) (d : GithubIssueData)
    (org : Organization) (repo : Repository) :
    store sess d org repo =
      ((store_many sess [d] org repo).1, (store_many sess [d] org repo).2.head?) ∧
    ∃ r : Issue,
      (store_many sess [d] org repo).2 = [r] ∧
      store sess d org repo = ((store_many sess [d] org repo).1, some r) ∧
      (store sess d org repo).1.hooks = sess.hooks ++ [r] :=
  ⟨rfl,
   (upsertOne sess.issues sess.next_id (IssueCreate.from_github d org.id repo.id)).2.2,
   rfl, rfl, rfl⟩

end Polar
